import Mathlib

/-!
# Verification of the microcap_agent consensus / scoring / sizing pipeline

Shallow embedding of the algorithmic core of the repository:

* `src/agents/meta_agent.py` — `MetaAgent.aggregate_recommendations` and
  `MetaAgent._calculate_diversity_penalty` (consensus aggregation with a
  diversity penalty);
* `src/agents/opportunity_scanner.py` — `OpportunityScannerAgent._score_opportunity`
  (capped 0–100 scoring);
* `src/agents/risk_committee.py` — the three risk-posture agents'
  `propose_position`, `RiskCommittee._claude_debate`,
  `RiskCommittee._simulated_debate` and `RiskCommittee.debate_position_sizing`.

Modelling conventions:

* Python floats are modelled as exact rationals (`ℚ`); all thresholds in the
  source are decimal literals, which `OfScientific ℚ` renders exactly.
* Python `int(x)` truncates toward zero; this is `pyIntTrunc` below.
* A raised exception (`ZeroDivisionError`) is modelled by `Option`: `none`
  means the Python call raises.
* Python dicts that may omit keys are modelled as structures; a field such as
  `pe_ratio` that the source reads with `data.get(...)` and tests for
  truthiness is modelled as `Option ℚ` (with `none` and `some 0` both falsy,
  exactly as in Python).
-/

set_option autoImplicit false

namespace MicrocapAgent

/-- Python `int(x)` for a rational: truncation toward zero.  `Int` division
in Lean (`Int.div` via `/` on `Int`) truncates toward zero, and `q.den > 0`,
so `q.num / q.den` is exactly Python's `int(q)`. -/
def pyIntTrunc (q : ℚ) : ℤ := q.num / (q.den : ℤ)

/-! ## MetaAgent (src/agents/meta_agent.py) -/

/-- The action carried by an agent recommendation
(spec §3: `action ∈ {BUY, SELL, HOLD, ADD, TRIM}`). -/
inductive Action where
  | BUY
  | SELL
  | HOLD
  | ADD
  | TRIM
deriving DecidableEq, Repr

/-- One agent recommendation, as consumed by
`MetaAgent.aggregate_recommendations`: a dict with keys `agent`, `action`,
`confidence`. -/
structure AgentRec where
  agent : String
  action : Action
  confidence : ℚ
deriving DecidableEq, Repr

/-- The aggregated result dict built by `MetaAgent.aggregate_recommendations`.
The empty-input branch of the Python code returns a dict holding only
`action`, `confidence` and `error`; the remaining numeric fields are modelled
as `0` / `""` there, and the `error` key as `Option String` (`some` = key
present). -/
structure ConsensusResult where
  action : Action
  confidence : ℚ
  base_confidence : ℚ
  diversity_score : ℚ
  agreement_rate : ℚ
  diversity_penalty : ℚ
  warning : String
  error : Option String
deriving DecidableEq, Repr

/-- Warning string of the groupthink branch of
`MetaAgent._calculate_diversity_penalty`. -/
def groupthink_warning : String :=
  "[!] HIGH AGREEMENT: All agents aligned - potential groupthink. Confidence reduced by 15%."

/-- Warning string of the chaos branch of
`MetaAgent._calculate_diversity_penalty`. -/
def chaos_warning : String :=
  "[!] LOW AGREEMENT: Agents strongly disagree - unclear signal. Confidence reduced by 10%."

/-- Note string of the healthy-diversity branch of
`MetaAgent._calculate_diversity_penalty`. -/
def healthy_warning : String :=
  "[OK] Healthy diversity: Agents show reasonable disagreement. No penalty applied."

/-- Embedding of `MetaAgent._calculate_diversity_penalty(agreement_rate, num_agents)`.
Thresholds `0.80` / `0.40` and penalties `0.85` / `0.90` are the instance
constants set in `MetaAgent.__init__`. -/
def calculate_diversity_penalty (agreement_rate : ℚ) (num_agents : ℕ) : ℚ × String :=
  if agreement_rate ≥ 0.80 then
    (0.85, groupthink_warning)
  else if agreement_rate ≤ 0.40 ∧ num_agents ≥ 3 then
    (0.90, chaos_warning)
  else
    (1.0, healthy_warning)

/-- Selection of the most common action, as performed by
`Counter(actions).most_common(1)[0][0]` in the source.  `Counter` keys are in
first-occurrence order and `most_common` sorts stably by descending count, so
the selected key is the one with maximal count whose first occurrence in
`actions` is earliest.  Scanning the action list left to right and replacing
the current best only on a strictly greater count realises exactly that
semantics (a later occurrence of an action has the same count as its first
occurrence and therefore never replaces it). -/
def pickMax (count : Action → ℕ) : Action → List Action → Action
  | best, [] => best
  | best, a :: rest => pickMax count (if count best < count a then a else best) rest

/-- The `most_common_action` computed in `aggregate_recommendations` on a
non-empty input `r :: rest`: the `Counter.most_common(1)` selection over the
action list. -/
def consensus_action (r : AgentRec) (rest : List AgentRec) : Action :=
  pickMax (fun a => ((r :: rest).map AgentRec.action).count a)
    r.action (rest.map AgentRec.action)

/-- The rate `agreement_rate = agreement_count / len(actions)` on a non-empty input. -/
def agreement_rate_of (r : AgentRec) (rest : List AgentRec) : ℚ :=
  ((((r :: rest).map AgentRec.action).count (consensus_action r rest) : ℕ) : ℚ) /
    ((((r :: rest).map AgentRec.action).length : ℕ) : ℚ)

/-- The mean `base_confidence = sum(confidences) / len(confidences)`. -/
def base_confidence_of (recs : List AgentRec) : ℚ :=
  (recs.map AgentRec.confidence).sum / (((recs.map AgentRec.confidence).length : ℕ) : ℚ)

/-- Embedding of `MetaAgent.aggregate_recommendations(agent_recs)` (src/agents/meta_agent.py,
lines 40–127).  The vote-breakdown dict and the free-text meta-analysis are
not modelled; every numeric field of the result is. -/
def aggregate_recommendations (agent_recs : List AgentRec) : ConsensusResult :=
  match agent_recs with
  | [] =>
    { action := .HOLD, confidence := 0, base_confidence := 0, diversity_score := 0,
      agreement_rate := 0, diversity_penalty := 0, warning := "",
      error := some "No recommendations to aggregate" }
  | r :: rest =>
    let pw := calculate_diversity_penalty (agreement_rate_of r rest)
      ((r :: rest).map AgentRec.action).length
    { action := consensus_action r rest,
      confidence := base_confidence_of (r :: rest) * pw.1,
      base_confidence := base_confidence_of (r :: rest),
      diversity_score := 1 - agreement_rate_of r rest,
      agreement_rate := agreement_rate_of r rest,
      diversity_penalty := pw.1,
      warning := pw.2, error := none }

lemma aggregate_cons_action (r : AgentRec) (rest : List AgentRec) :
    (aggregate_recommendations (r :: rest)).action = consensus_action r rest := rfl

lemma aggregate_cons_rate (r : AgentRec) (rest : List AgentRec) :
    (aggregate_recommendations (r :: rest)).agreement_rate = agreement_rate_of r rest := rfl

lemma aggregate_cons_diversity (r : AgentRec) (rest : List AgentRec) :
    (aggregate_recommendations (r :: rest)).diversity_score =
      1 - agreement_rate_of r rest := rfl

lemma aggregate_cons_penalty (r : AgentRec) (rest : List AgentRec) :
    (aggregate_recommendations (r :: rest)).diversity_penalty =
      (calculate_diversity_penalty (agreement_rate_of r rest)
        ((r :: rest).map AgentRec.action).length).1 := rfl

lemma aggregate_cons_warning (r : AgentRec) (rest : List AgentRec) :
    (aggregate_recommendations (r :: rest)).warning =
      (calculate_diversity_penalty (agreement_rate_of r rest)
        ((r :: rest).map AgentRec.action).length).2 := rfl

lemma aggregate_cons_base (r : AgentRec) (rest : List AgentRec) :
    (aggregate_recommendations (r :: rest)).base_confidence =
      base_confidence_of (r :: rest) := rfl

lemma aggregate_cons_confidence (r : AgentRec) (rest : List AgentRec) :
    (aggregate_recommendations (r :: rest)).confidence =
      (aggregate_recommendations (r :: rest)).base_confidence *
        (aggregate_recommendations (r :: rest)).diversity_penalty := rfl

/-- The scan result is always drawn from the candidates it scans. -/
lemma pickMax_mem (count : Action → ℕ) (best : Action) (l : List Action) :
    pickMax count best l = best ∨ pickMax count best l ∈ l := by
  induction l generalizing best with
  | nil => exact Or.inl rfl
  | cons a rest ih =>
    rcases ih (if count best < count a then a else best) with h | h
    · rw [pickMax, h]
      split
      · exact Or.inr (List.mem_cons_self _ _)
      · exact Or.inl rfl
    · exact Or.inr (List.mem_cons_of_mem _ h)

/-- The scan result has a count at least that of the starting candidate. -/
lemma pickMax_ge_start (count : Action → ℕ) (best : Action) (l : List Action) :
    count best ≤ count (pickMax count best l) := by
  induction l generalizing best with
  | nil => exact le_refl _
  | cons a rest ih =>
    rw [pickMax]
    refine le_trans ?_ (ih _)
    split
    · exact le_of_lt (by assumption)
    · exact le_refl _

/-- The scan result has a count at least that of every scanned element. -/
lemma pickMax_ge_mem (count : Action → ℕ) (best : Action) (l : List Action) :
    ∀ a ∈ l, count a ≤ count (pickMax count best l) := by
  induction l generalizing best with
  | nil => intro a ha; cases ha
  | cons b rest ih =>
    intro a ha
    rw [pickMax]
    rcases List.mem_cons.mp ha with h | h
    · subst h
      refine le_trans ?_ (pickMax_ge_start count _ rest)
      split
      · exact le_refl _
      · exact le_of_not_lt (by assumption)
    · exact ih _ a h

/-- Tie-break characterisation: scanning `best :: l`, every element strictly
before the selected one has a strictly smaller count.  Together with
maximality this pins the result down as the element of maximal count whose
occurrence comes earliest. -/
lemma pickMax_split (count : Action → ℕ) (best : Action) (l : List Action) :
    ∃ l₁ l₂, best :: l = l₁ ++ pickMax count best l :: l₂ ∧
      ∀ a ∈ l₁, count a < count (pickMax count best l) := by
  induction l generalizing best with
  | nil => exact ⟨[], [], rfl, by intro a ha; cases ha⟩
  | cons a rest ih =>
    rw [pickMax]
    by_cases hca : count best < count a
    · simp only [if_pos hca]
      obtain ⟨l₁, l₂, heq, hlt⟩ := ih a
      refine ⟨best :: l₁, l₂, by rw [List.cons_append, ← heq], ?_⟩
      intro x hx
      rcases List.mem_cons.mp hx with h | h
      · subst h
        exact lt_of_lt_of_le hca (pickMax_ge_start count a rest)
      · exact hlt x h
    · simp only [if_neg hca]
      obtain ⟨l₁, l₂, heq, hlt⟩ := ih best
      cases l₁ with
      | nil =>
        simp only [List.nil_append] at heq
        refine ⟨[], a :: rest, ?_, by intro x hx; cases hx⟩
        rw [List.nil_append]
        have hb : best = pickMax count best rest := by
          exact (List.cons.injEq _ _ _ _).mp heq |>.1
        rw [← hb]
      | cons y l₁' =>
        have heq' := heq
        rw [List.cons_append] at heq'
        have hy : y = best := ((List.cons.injEq _ _ _ _).mp heq').1.symm
        have htail : rest = l₁' ++ pickMax count best rest :: l₂ :=
          ((List.cons.injEq _ _ _ _).mp heq').2
        refine ⟨best :: a :: l₁', l₂, ?_, ?_⟩
        · rw [List.cons_append, List.cons_append]
          exact congrArg (fun t => best :: a :: t) htail
        · intro x hx
          have hbestlt : count best < count (pickMax count best rest) :=
            hlt best (by rw [hy]; exact List.mem_cons_self _ _)
          rcases List.mem_cons.mp hx with h | h
          · subst h; exact hbestlt
          · rcases List.mem_cons.mp h with h' | h'
            · subst h'
              exact lt_of_le_of_lt (le_of_not_lt hca) hbestlt
            · exact hlt x (by rw [hy]; exact List.mem_cons_of_mem _ h')

/-- Branch analysis of `MetaAgent._calculate_diversity_penalty`. -/
lemma calculate_diversity_penalty_cases (rate : ℚ) (n : ℕ) :
    (rate ≥ 0.80 → calculate_diversity_penalty rate n = (0.85, groupthink_warning)) ∧
    (¬ rate ≥ 0.80 → rate ≤ 0.40 → n ≥ 3 →
      calculate_diversity_penalty rate n = (0.90, chaos_warning)) ∧
    (¬ rate ≥ 0.80 → ¬ (rate ≤ 0.40 ∧ n ≥ 3) →
      calculate_diversity_penalty rate n = (1.0, healthy_warning)) := by
  unfold calculate_diversity_penalty
  refine ⟨fun h => ?_, fun h1 h2 h3 => ?_, fun h1 h2 => ?_⟩
  · rw [if_pos h]
  · rw [if_neg h1, if_pos ⟨h2, h3⟩]
  · rw [if_neg h1, if_neg h2]

/-- The penalty multiplier is always one of `0.85`, `0.90`, `1.0`. -/
lemma calculate_diversity_penalty_values (rate : ℚ) (n : ℕ) :
    (calculate_diversity_penalty rate n).1 = 0.85 ∨
    (calculate_diversity_penalty rate n).1 = 0.90 ∨
    (calculate_diversity_penalty rate n).1 = 1.0 := by
  unfold calculate_diversity_penalty
  split_ifs <;> simp

/-- Test list from the module self-test / spec Scenario A: four agents all
voting BUY. -/
def scenarioA : List AgentRec :=
  [⟨"technical", .BUY, 0.85⟩, ⟨"risk", .BUY, 0.80⟩,
   ⟨"momentum", .BUY, 0.90⟩, ⟨"fundamental", .BUY, 0.82⟩]

/-- Test list from the module self-test / spec Scenario B: HOLD/SELL/HOLD/BUY. -/
def scenarioB : List AgentRec :=
  [⟨"technical", .HOLD, 0.75⟩, ⟨"risk", .SELL, 0.70⟩,
   ⟨"momentum", .HOLD, 0.80⟩, ⟨"fundamental", .BUY, 0.65⟩]

/-- C1: for every non-empty list of opinions, the aggregator picks the penalty
multiplier `0.85` (with the groupthink warning) when `agreement_rate ≥ 0.80`,
else `0.90` (with the chaos warning) when `agreement_rate ≤ 0.40` and at least
3 opinions are present, else `1.0`; with fewer than 3 opinions the `0.90`
branch never fires; and `final_confidence = base_confidence × multiplier`
exactly, where `base_confidence` is the arithmetic mean of the opinions'
confidence values. -/
theorem diversity_penalty_spec (recs : List AgentRec) (h : recs ≠ []) :
    ((aggregate_recommendations recs).agreement_rate ≥ 0.80 →
      (aggregate_recommendations recs).diversity_penalty = 0.85 ∧
      (aggregate_recommendations recs).warning = groupthink_warning) ∧
    (¬ (aggregate_recommendations recs).agreement_rate ≥ 0.80 →
      (aggregate_recommendations recs).agreement_rate ≤ 0.40 → 3 ≤ recs.length →
      (aggregate_recommendations recs).diversity_penalty = 0.90 ∧
      (aggregate_recommendations recs).warning = chaos_warning) ∧
    (¬ (aggregate_recommendations recs).agreement_rate ≥ 0.80 →
      ¬ ((aggregate_recommendations recs).agreement_rate ≤ 0.40 ∧ 3 ≤ recs.length) →
      (aggregate_recommendations recs).diversity_penalty = 1.0) ∧
    (recs.length < 3 → (aggregate_recommendations recs).diversity_penalty ≠ 0.90) ∧
    (aggregate_recommendations recs).confidence =
      (aggregate_recommendations recs).base_confidence *
        (aggregate_recommendations recs).diversity_penalty ∧
    (aggregate_recommendations recs).base_confidence =
      (recs.map AgentRec.confidence).sum / (recs.length : ℚ) := by
  cases recs with
  | nil => exact absurd rfl h
  | cons r rest =>
    obtain ⟨hgt, hch, hok⟩ :=
      calculate_diversity_penalty_cases (agreement_rate_of r rest)
        ((r :: rest).map AgentRec.action).length
    refine ⟨?_, ?_, ?_, ?_, aggregate_cons_confidence r rest, ?_⟩
    · intro hr
      rw [aggregate_cons_rate] at hr
      rw [aggregate_cons_penalty, aggregate_cons_warning, hgt hr]
      exact ⟨rfl, rfl⟩
    · intro h1 h2 h3
      rw [aggregate_cons_rate] at h1 h2
      have h3' : ((r :: rest).map AgentRec.action).length ≥ 3 := by
        rw [List.length_map]; exact h3
      rw [aggregate_cons_penalty, aggregate_cons_warning, hch h1 h2 h3']
      exact ⟨rfl, rfl⟩
    · intro h1 h2
      rw [aggregate_cons_rate] at h1
      have h2' : ¬ (agreement_rate_of r rest ≤ 0.40 ∧
          ((r :: rest).map AgentRec.action).length ≥ 3) := by
        rw [List.length_map]
        intro hc
        exact h2 ⟨by rw [aggregate_cons_rate]; exact hc.1, hc.2⟩
      rw [aggregate_cons_penalty, hok h1 h2']
    · intro hlen hp
      rw [aggregate_cons_penalty] at hp
      simp only [calculate_diversity_penalty] at hp
      split_ifs at hp with hA hB
      · norm_num at hp
      · rw [List.length_map, List.length_cons] at hB
        rw [List.length_cons] at hlen
        exact absurd hB.2 (by omega)
      · norm_num at hp
    · rw [aggregate_cons_base]
      simp only [base_confidence_of, List.length_map]

/-- Witness for C1 at spec Scenario A: four unanimous BUY opinions trigger the
groupthink branch. -/
theorem diversity_penalty_spec_witness :
    (aggregate_recommendations scenarioA).diversity_penalty = 0.85 ∧
    (aggregate_recommendations scenarioA).warning = groupthink_warning :=
  (diversity_penalty_spec scenarioA (by decide)).1 (by
    rw [scenarioA, aggregate_cons_rate]
    rw [show agreement_rate_of ⟨"technical", .BUY, 0.85⟩
        [⟨"risk", .BUY, 0.80⟩, ⟨"momentum", .BUY, 0.90⟩, ⟨"fundamental", .BUY, 0.82⟩] =
        (1 : ℚ) from by
      simp [agreement_rate_of, consensus_action, pickMax, List.count_cons]]
    norm_num)

/-- C7: for every non-empty list of opinions, the consensus action has maximal
vote count; every action occurring strictly before it in the input has a
strictly smaller count (i.e. ties are broken in favour of the earliest first
occurrence); `agreement_rate` is the consensus action's count over the total
number of opinions; and `diversity_score = 1 − agreement_rate` exactly. -/
theorem consensus_action_plurality (recs : List AgentRec) (h : recs ≠ []) :
    (∀ a : Action, (recs.map AgentRec.action).count a ≤
        (recs.map AgentRec.action).count (aggregate_recommendations recs).action) ∧
    (∃ l₁ l₂, recs.map AgentRec.action =
        l₁ ++ (aggregate_recommendations recs).action :: l₂ ∧
      ∀ a ∈ l₁, (recs.map AgentRec.action).count a <
        (recs.map AgentRec.action).count (aggregate_recommendations recs).action) ∧
    (aggregate_recommendations recs).agreement_rate =
      (((recs.map AgentRec.action).count (aggregate_recommendations recs).action : ℕ) : ℚ) /
        (recs.length : ℚ) ∧
    (aggregate_recommendations recs).diversity_score =
      1 - (aggregate_recommendations recs).agreement_rate := by
  cases recs with
  | nil => exact absurd rfl h
  | cons r rest =>
    have hact : (aggregate_recommendations (r :: rest)).action =
        pickMax (fun a => ((r :: rest).map AgentRec.action).count a)
          r.action (rest.map AgentRec.action) := rfl
    refine ⟨?_, ?_, ?_, ?_⟩
    · intro a
      rw [hact]
      by_cases hmem : a ∈ (r :: rest).map AgentRec.action
      · rw [List.map_cons] at hmem
        rcases List.mem_cons.mp hmem with hh | ht
        · subst hh
          exact pickMax_ge_start (fun a => ((r :: rest).map AgentRec.action).count a)
            r.action (rest.map AgentRec.action)
        · exact pickMax_ge_mem (fun a => ((r :: rest).map AgentRec.action).count a)
            r.action (rest.map AgentRec.action) a ht
      · rw [List.count_eq_zero_of_not_mem hmem]
        exact Nat.zero_le _
    · rw [hact, List.map_cons]
      exact pickMax_split (fun a => ((r :: rest).map AgentRec.action).count a)
        r.action (rest.map AgentRec.action)
    · rw [aggregate_cons_rate, aggregate_cons_action]
      simp only [agreement_rate_of, List.length_map]
    · rw [aggregate_cons_diversity, aggregate_cons_rate]

/-- Witness for C7 at spec Scenario B (HOLD/SELL/HOLD/BUY). -/
theorem consensus_action_plurality_witness :
    (aggregate_recommendations scenarioB).agreement_rate =
      (((scenarioB.map AgentRec.action).count (aggregate_recommendations scenarioB).action : ℕ) : ℚ) /
        (scenarioB.length : ℚ) ∧
    (aggregate_recommendations scenarioB).diversity_score =
      1 - (aggregate_recommendations scenarioB).agreement_rate :=
  ⟨(consensus_action_plurality scenarioB (by decide)).2.2.1,
   (consensus_action_plurality scenarioB (by decide)).2.2.2⟩

/-- C8: the aggregator on an empty opinion list returns the defined degraded
result — action HOLD, confidence 0, and the explicit no-data `error` entry —
and, being a total function of its input, never raises. -/
theorem aggregate_empty_degraded :
    (aggregate_recommendations []).action = Action.HOLD ∧
    (aggregate_recommendations []).confidence = 0 ∧
    (aggregate_recommendations []).error = some "No recommendations to aggregate" :=
  ⟨rfl, rfl, rfl⟩

/-! ## OpportunityScannerAgent (src/agents/opportunity_scanner.py) -/

/-- Truthiness of an optional numeric dict entry, as Python evaluates
`data.get("pe_ratio")` in a boolean context: `None` and `0` are falsy. -/
def truthyQ (o : Option ℚ) : Prop := o.getD 0 ≠ 0

instance (o : Option ℚ) : Decidable (truthyQ o) := by
  unfold truthyQ; infer_instance

/-- The numeric value of an optional dict entry (only read under `truthyQ`). -/
def qval (o : Option ℚ) : ℚ := o.getD 0

/-- The preferred-sector list `SCREENING_CRITERIA["sectors"]`. -/
def preferred_sectors : List String :=
  ["Technology", "Healthcare", "Biotechnology", "Energy"]

/-- The per-ticker data dict fields read by `_score_opportunity`.  Fields the
source reads with a plain default (`data.get(k, v)`) are plain `ℚ`; fields it
reads with `data.get(k)` and then tests for truthiness are `Option ℚ`. -/
structure TickerData where
  price_change_pct : ℚ
  volume : ℚ
  avg_volume : ℚ
  rsi : ℚ
  price : ℚ
  fifty_two_week_high : ℚ
  fifty_two_week_low : ℚ
  pe_ratio : Option ℚ
  forward_pe : Option ℚ
  price_to_book : Option ℚ
  revenue_growth : Option ℚ
  sector : String
deriving DecidableEq, Repr

/-- The `signals` dict of `_score_opportunity`.  Values are Python ints. -/
structure Signals where
  momentum : ℤ
  technical : ℤ
  fundamental : ℤ
  sentiment : ℤ
  sector_match : ℤ
deriving DecidableEq, Repr

/-- Price-momentum tier of `_score_opportunity` (0–15). -/
def momentum_price_score (price_change : ℚ) : ℤ :=
  if price_change > 10 then 15
  else if price_change > 7 then 10
  else if price_change > 4 then 5
  else 0

/-- Volume-spike tier of `_score_opportunity` (0–10);
`volume_ratio = volume / avg_volume if avg_volume > 0 else 1`. -/
def momentum_volume_score (volume avg_volume : ℚ) : ℤ :=
  let volume_ratio := if avg_volume > 0 then volume / avg_volume else 1
  if volume_ratio > 4 then 10
  else if volume_ratio > 2.5 then 7
  else if volume_ratio > 1.8 then 4
  else 0

/-- RSI-positioning tier of `_score_opportunity` (0–10). -/
def technical_rsi_score (rsi : ℚ) : ℤ :=
  if 58 ≤ rsi ∧ rsi ≤ 65 then 10
  else if 52 ≤ rsi ∧ rsi ≤ 70 then 6
  else if 45 ≤ rsi ∧ rsi ≤ 52 then 3
  else 0

/-- The 52-week-range-position tier of `_score_opportunity` (0–15); guarded by
`if high_52w and low_52w and high_52w != low_52w` (truthiness: a value of `0`
skips the block). -/
def technical_range_score (price high_52w low_52w : ℚ) : ℤ :=
  if high_52w ≠ 0 ∧ low_52w ≠ 0 ∧ high_52w ≠ low_52w then
    let position := (price - low_52w) / (high_52w - low_52w) * 100
    if position > 85 then 15
    else if position > 70 then 10
    else if position > 55 then 5
    else 0
  else 0

/-- Fundamental tiers of `_score_opportunity` (P/E + P/B + revenue growth,
raw sum before the cap). -/
def fundamental_score_raw (pe_ratio forward_pe pb_ratio revenue_growth : Option ℚ) : ℤ :=
  (if truthyQ pe_ratio ∧ 0 < qval pe_ratio ∧ qval pe_ratio < 25 then 10
   else if truthyQ pe_ratio ∧ 0 < qval pe_ratio ∧ qval pe_ratio < 40 then 5
   else if truthyQ forward_pe ∧ 0 < qval forward_pe ∧ qval forward_pe < 20 then 7
   else 0) +
  (if truthyQ pb_ratio ∧ 0 < qval pb_ratio ∧ qval pb_ratio < 3 then 8
   else if truthyQ pb_ratio ∧ 0 < qval pb_ratio ∧ qval pb_ratio < 5 then 4
   else 0) +
  (if truthyQ revenue_growth ∧ qval revenue_growth > 0.20 then 7
   else if truthyQ revenue_growth ∧ qval revenue_growth > 0.10 then 4
   else 0)

/-- Embedding of `OpportunityScannerAgent._score_opportunity(ticker, data)`
(src/agents/opportunity_scanner.py, lines 319–459): the five capped signal
categories and the total score, clamped to 100 with an error log when the raw
sum overflows.  The caps are `SCORING_WEIGHTS` (25/25/25/10/15). -/
def score_opportunity (d : TickerData) : ℤ × Signals :=
  let momentum := min (momentum_price_score d.price_change_pct +
    momentum_volume_score d.volume d.avg_volume) 25
  let technical := min (technical_rsi_score d.rsi +
    technical_range_score d.price d.fifty_two_week_high d.fifty_two_week_low) 25
  let fundamental := min (fundamental_score_raw d.pe_ratio d.forward_pe
    d.price_to_book d.revenue_growth) 25
  let sentiment := min 0 10
  let sector_match := min (if d.sector ∈ preferred_sectors then 15 else 0) 15
  let total_score := momentum + technical + fundamental + sentiment + sector_match
  (if total_score > 100 then 100 else total_score,
   ⟨momentum, technical, fundamental, sentiment, sector_match⟩)

lemma momentum_price_score_bounds (x : ℚ) :
    0 ≤ momentum_price_score x ∧ momentum_price_score x ≤ 15 := by
  unfold momentum_price_score
  split_ifs <;> norm_num

lemma momentum_volume_score_bounds (v a : ℚ) :
    0 ≤ momentum_volume_score v a ∧ momentum_volume_score v a ≤ 10 := by
  unfold momentum_volume_score
  dsimp only
  split_ifs <;> norm_num

lemma technical_rsi_score_bounds (x : ℚ) :
    0 ≤ technical_rsi_score x ∧ technical_rsi_score x ≤ 10 := by
  unfold technical_rsi_score
  split_ifs <;> norm_num

lemma technical_range_score_bounds (p h l : ℚ) :
    0 ≤ technical_range_score p h l ∧ technical_range_score p h l ≤ 15 := by
  unfold technical_range_score
  dsimp only
  split_ifs <;> norm_num

/-- The clamp `if total_score > 100: total_score = 100` keeps a non-negative total in
`[0, 100]`. -/
lemma clamp_bounds (t : ℤ) (h0 : 0 ≤ t) :
    0 ≤ (if t > 100 then 100 else t) ∧ (if t > 100 then 100 else t) ≤ 100 := by
  split_ifs with h
  · norm_num
  · exact ⟨h0, by linarith⟩

lemma fundamental_score_raw_bounds (pe fpe pb rg : Option ℚ) :
    0 ≤ fundamental_score_raw pe fpe pb rg ∧ fundamental_score_raw pe fpe pb rg ≤ 25 := by
  unfold fundamental_score_raw
  split_ifs <;> norm_num

/-- C2: for every input, each signal category is non-negative and stays within
its declared cap (momentum ≤ 25, technical ≤ 25, fundamental ≤ 25,
sentiment ≤ 10, sector_match ≤ 15), and the returned total score lies in
`[0, 100]` (the over-100 case being clamped). -/
theorem score_opportunity_bounds (d : TickerData) :
    0 ≤ (score_opportunity d).2.momentum ∧ (score_opportunity d).2.momentum ≤ 25 ∧
    0 ≤ (score_opportunity d).2.technical ∧ (score_opportunity d).2.technical ≤ 25 ∧
    0 ≤ (score_opportunity d).2.fundamental ∧ (score_opportunity d).2.fundamental ≤ 25 ∧
    0 ≤ (score_opportunity d).2.sentiment ∧ (score_opportunity d).2.sentiment ≤ 10 ∧
    0 ≤ (score_opportunity d).2.sector_match ∧ (score_opportunity d).2.sector_match ≤ 15 ∧
    0 ≤ (score_opportunity d).1 ∧ (score_opportunity d).1 ≤ 100 := by
  obtain ⟨hmp0, hmp1⟩ := momentum_price_score_bounds d.price_change_pct
  obtain ⟨hmv0, hmv1⟩ := momentum_volume_score_bounds d.volume d.avg_volume
  obtain ⟨hr0, hr1⟩ := technical_rsi_score_bounds d.rsi
  obtain ⟨hg0, hg1⟩ := technical_range_score_bounds d.price
    d.fifty_two_week_high d.fifty_two_week_low
  obtain ⟨hf0, hf1⟩ := fundamental_score_raw_bounds d.pe_ratio d.forward_pe
    d.price_to_book d.revenue_growth
  have hsec0 : (0 : ℤ) ≤ (if d.sector ∈ preferred_sectors then (15 : ℤ) else 0) := by
    split_ifs <;> norm_num
  simp only [score_opportunity]
  have hm : (0 : ℤ) ≤ min (momentum_price_score d.price_change_pct +
      momentum_volume_score d.volume d.avg_volume) 25 := le_min (by linarith) (by norm_num)
  have ht : (0 : ℤ) ≤ min (technical_rsi_score d.rsi +
      technical_range_score d.price d.fifty_two_week_high d.fifty_two_week_low) 25 :=
    le_min (by linarith) (by norm_num)
  have hf : (0 : ℤ) ≤ min (fundamental_score_raw d.pe_ratio d.forward_pe
      d.price_to_book d.revenue_growth) 25 := le_min hf0 (by norm_num)
  have hs : (0 : ℤ) ≤ min 0 10 := by norm_num
  have hsec : (0 : ℤ) ≤ min (if d.sector ∈ preferred_sectors then (15 : ℤ) else 0) 15 :=
    le_min hsec0 (by norm_num)
  refine ⟨hm, min_le_right _ _, ht, min_le_right _ _, hf, min_le_right _ _,
    hs, min_le_right _ _, hsec, min_le_right _ _, ?_, ?_⟩
  · exact (clamp_bounds _ (by linarith)).1
  · exact (clamp_bounds _ (by linarith)).2


/-! ## RiskCommittee (src/agents/risk_committee.py) -/

/-- The recommendation dict consumed by the committee.  The source checks
`"momentum" in recommendation.get("reasoning", "").lower()`; that substring
test on the free reasoning text is modelled by the Boolean field
`reasoning_mentions_momentum`. -/
structure Recommendation where
  ticker : String
  action : String
  qty : ℤ
  target_price : ℚ
  reasoning_mentions_momentum : Bool
  confidence : ℚ
deriving DecidableEq, Repr

/-- The portfolio-context dict read by the posture agents. -/
structure PortfolioContext where
  sector_exposure : ℚ
  total_value : ℚ
deriving DecidableEq, Repr

/-- A posture agent's position proposal (the dict returned by
`propose_position`; the `reasoning_preview` f-string is not modelled).
`position_pct` and `stop_loss_pct` are the percentage values
(`position_pct * 100`, `self.stop_loss_pct * 100`). -/
structure Proposal where
  agent : String
  proposed_qty : ℤ
  position_pct : ℚ
  stop_loss_pct : ℚ
deriving DecidableEq, Repr

/-- The quantity `proposed_qty = int(position_pct * 1000 / price)`: every posture agent
divides by the target price with a hard-coded $1000 notional.  A zero price
raises `ZeroDivisionError` in Python, modelled by `none`. -/
def proposed_qty_of (position_pct price : ℚ) : Option ℤ :=
  if price = 0 then none else some (pyIntTrunc (position_pct * 1000 / price))

/-- Embedding of `RiskSeekingAgent.propose_position` (src/agents/risk_committee.py,
lines 104–145): 25% at confidence ≥ 0.85, 20% at ≥ 0.75, else 15%; scaled by
1.2 (capped at 30%) when the reasoning mentions momentum; stop loss −25%. -/
def seeking_propose_position (rec : Recommendation) (_ctx : PortfolioContext) :
    Option Proposal :=
  let position_pct₀ : ℚ :=
    if rec.confidence ≥ 0.85 then 0.25
    else if rec.confidence ≥ 0.75 then 0.20
    else 0.15
  let position_pct : ℚ :=
    if rec.reasoning_mentions_momentum then min (position_pct₀ * 1.2) 0.30 else position_pct₀
  (proposed_qty_of position_pct rec.target_price).map fun q =>
    { agent := "Risk-Seeking", proposed_qty := q,
      position_pct := position_pct * 100, stop_loss_pct := (-0.25 : ℚ) * 100 }

/-- Embedding of `RiskNeutralAgent.propose_position` (lines 220–247): 18% at confidence
≥ 0.80, 15% at ≥ 0.70, else 12%; stop loss −20%. -/
def neutral_propose_position (rec : Recommendation) (_ctx : PortfolioContext) :
    Option Proposal :=
  let position_pct : ℚ :=
    if rec.confidence ≥ 0.80 then 0.18
    else if rec.confidence ≥ 0.70 then 0.15
    else 0.12
  (proposed_qty_of position_pct rec.target_price).map fun q =>
    { agent := "Risk-Neutral", proposed_qty := q,
      position_pct := position_pct * 100, stop_loss_pct := (-0.20 : ℚ) * 100 }

/-- Embedding of `RiskConservativeAgent.propose_position` (lines 322–354): 15% at
confidence ≥ 0.85, 12% at ≥ 0.75, else 10%; scaled by 0.8 when
`sector_exposure > 0.30`; stop loss −15%. -/
def conservative_propose_position (rec : Recommendation) (ctx : PortfolioContext) :
    Option Proposal :=
  let position_pct₀ : ℚ :=
    if rec.confidence ≥ 0.85 then 0.15
    else if rec.confidence ≥ 0.75 then 0.12
    else 0.10
  let position_pct : ℚ :=
    if ctx.sector_exposure > 0.30 then position_pct₀ * 0.8 else position_pct₀
  (proposed_qty_of position_pct rec.target_price).map fun q =>
    { agent := "Risk-Conservative", proposed_qty := q,
      position_pct := position_pct * 100, stop_loss_pct := (-0.15 : ℚ) * 100 }

/-- The consensus block each resolution strategy returns: `consensus_qty`,
the stop percentage it chose, and the stop price it formats into the
`stop_loss` string (`f"${stop_price:.2f} ({stop_pct}%)"`). -/
structure DebateConsensus where
  consensus_qty : ℤ
  stop_pct : ℚ
  stop_price : ℚ
deriving DecidableEq, Repr

/-- Embedding of `RiskCommittee._simulated_debate` (lines 617–653): the deterministic
fallback.  Confidence ≥ 0.85 resolves to the Risk-Seeking proposal,
confidence ≥ 0.70 to Risk-Neutral, else Risk-Conservative;
`stop_price = target_price * (1 + stop_pct / 100)`. -/
def simulated_debate (rec : Recommendation)
    (seeking neutral conservative : Proposal) : DebateConsensus :=
  let qs : ℤ × ℚ :=
    if rec.confidence ≥ 0.85 then (seeking.proposed_qty, seeking.stop_loss_pct)
    else if rec.confidence ≥ 0.70 then (neutral.proposed_qty, neutral.stop_loss_pct)
    else (conservative.proposed_qty, conservative.stop_loss_pct)
  { consensus_qty := qs.1, stop_pct := qs.2,
    stop_price := rec.target_price * (1 + qs.2 / 100) }

/-- Python `\s` whitespace on ASCII text (space, tab, newline, carriage
return, form feed, vertical tab). -/
def isPySpace (c : Char) : Bool :=
  c = ' ' || c = '\t' || c = '\n' || c = '\x0d' || c = '\x0c' || c = '\x0b'

/-- Case-insensitive literal match of `pat` (given lowercase) against the
start of `cs`, as `re.IGNORECASE` matches a literal. -/
def lowerStartMatch : List Char → List Char → Bool
  | [], _ => true
  | _ :: _, [] => false
  | p :: ps, c :: cs => p == c.toLower && lowerStartMatch ps cs

/-- Numeric value of a digit run (`int` applied to the matched group). -/
def digitsVal (ds : List Char) : ℕ :=
  ds.foldl (fun n c => 10 * n + (c.toNat - 48)) 0

/-- After the digit group of `(\d+)\s*shares?`: skip `\s*`, then require the
literal `share` (the trailing `s?` never affects success of `share`). -/
def sharesTail (cs : List Char) : Bool :=
  lowerStartMatch ['s', 'h', 'a', 'r', 'e'] (cs.dropWhile isPySpace)

/-- After the signed digit group of `(-?\d+)%?\s*stop`: optionally skip `%`,
skip `\s*`, then require the literal `stop`. -/
def stopTail (cs : List Char) : Bool :=
  let cs' := match cs with
    | '%' :: r => r
    | r => r
  lowerStartMatch ['s', 't', 'o', 'p'] (cs'.dropWhile isPySpace)

/-- Embedding of the search `(\d+)\s*shares?` with `re.IGNORECASE`: the leftmost
position where a maximal digit run is followed (after optional whitespace) by
`share` wins; the captured group is that digit run.  Backtracking the greedy
`\d+` to a shorter run can never succeed (the next character would be a
digit, which matches neither `\s` nor `s`), so the scan below is exact. -/
def searchShares : List Char → Option ℕ
  | [] => none
  | c :: rest =>
    if c.isDigit then
      if sharesTail ((c :: rest).dropWhile Char.isDigit) then
        some (digitsVal ((c :: rest).takeWhile Char.isDigit))
      else searchShares rest
    else searchShares rest

/-- Embedding of the search `(-?\d+)%?\s*stop` with `re.IGNORECASE`: like
`searchShares`, with an optional leading minus captured into the group and an
optional `%` after the digits. -/
def searchStop : List Char → Option ℤ
  | [] => none
  | c :: rest =>
    if c = '-' then
      match rest with
      | d :: _ =>
        if d.isDigit then
          if stopTail (rest.dropWhile Char.isDigit) then
            some (-(digitsVal (rest.takeWhile Char.isDigit) : ℤ))
          else searchStop rest
        else searchStop rest
      | [] => none
    else if c.isDigit then
      if stopTail ((c :: rest).dropWhile Char.isDigit) then
        some ((digitsVal ((c :: rest).takeWhile Char.isDigit) : ℤ))
      else searchStop rest
    else searchStop rest

/-- Outcome of the external arbitration call inside `_claude_debate`'s `try`
block: either the reply text, or a raised exception (timeout / transport
error), which the `except` clause turns into the simulated-debate fallback. -/
inductive ArbiterReply where
  | ok (text : String)
  | failure
deriving DecidableEq, Repr

/-- Embedding of `RiskCommittee._claude_debate` (lines 520–615).  On a received reply the
share count is parsed with `(\d+)\s*shares?` — defaulting to the Risk-Neutral
proposal's quantity when absent — and the stop with `(-?\d+)%?\s*stop` —
negated if positive, defaulting to −20 when absent; then
`stop_price = target_price * (1 + stop_pct / 100)`.  On a raised exception
the whole computation falls back to `_simulated_debate`. -/
def claude_debate (reply : ArbiterReply) (rec : Recommendation)
    (seeking neutral conservative : Proposal) : DebateConsensus :=
  match reply with
  | .failure => simulated_debate rec seeking neutral conservative
  | .ok text =>
    let consensus_qty : ℤ :=
      match searchShares text.data with
      | some n => (n : ℤ)
      | none => neutral.proposed_qty
    let stop_pct : ℤ :=
      match searchStop text.data with
      | some s => if s > 0 then -s else s
      | none => -20
    { consensus_qty := consensus_qty, stop_pct := (stop_pct : ℚ),
      stop_price := rec.target_price * (1 + (stop_pct : ℚ) / 100) }

/-- The full committee result assembled by `debate_position_sizing`
(timestamp, formatted strings and history append are not modelled). -/
structure CommitteeResult where
  seeking : Proposal
  neutral : Proposal
  conservative : Proposal
  consensus : DebateConsensus
  winner : String
deriving DecidableEq, Repr

/-- Embedding of `RiskCommittee.debate_position_sizing` (lines 411–518).  The three
posture proposals are computed first (a `ZeroDivisionError` in any of them
propagates: `none`); then the arbiter-assisted strategy runs when a Claude
client is configured (`arbiter = some reply`), the simulated debate
otherwise; finally the winner is the posture whose proposal is numerically
closest to the consensus quantity, ties resolved in the insertion order
Seeking, Neutral, Conservative of the `distances` dict (`min` returns the
first minimal key). -/
def debate_position_sizing (arbiter : Option ArbiterReply)
    (rec : Recommendation) (ctx : PortfolioContext) : Option CommitteeResult := do
  let s ← seeking_propose_position rec ctx
  let n ← neutral_propose_position rec ctx
  let c ← conservative_propose_position rec ctx
  let consensus := match arbiter with
    | some reply => claude_debate reply rec s n c
    | none => simulated_debate rec s n c
  let dS := (consensus.consensus_qty - s.proposed_qty).natAbs
  let dN := (consensus.consensus_qty - n.proposed_qty).natAbs
  let dC := (consensus.consensus_qty - c.proposed_qty).natAbs
  let winner :=
    if dS ≤ dN ∧ dS ≤ dC then "Risk-Seeking"
    else if dN ≤ dC then "Risk-Neutral"
    else "Risk-Conservative"
  some { seeking := s, neutral := n, conservative := c,
         consensus := consensus, winner := winner }

/-- Concrete recommendation used as test input (the module self-test ticker,
with a round $10 target price and confidence 0.9). -/
def recDemo : Recommendation :=
  { ticker := "APLD", action := "BUY", qty := 5, target_price := 10,
    reasoning_mentions_momentum := false, confidence := 0.9 }

/-- Concrete portfolio context (the default used by `debate_position_sizing`
when the caller passes none). -/
def ctxDemo : PortfolioContext := { sector_exposure := 0.2, total_value := 1000 }

/-- The Risk-Seeking proposal at `recDemo` / `ctxDemo`. -/
def proposalS : Proposal := ⟨"Risk-Seeking", 25, 25, -25⟩

/-- The Risk-Neutral proposal at `recDemo` / `ctxDemo`. -/
def proposalN : Proposal := ⟨"Risk-Neutral", 18, 18, -20⟩

/-- The Risk-Conservative proposal at `recDemo` / `ctxDemo`. -/
def proposalC : Proposal := ⟨"Risk-Conservative", 15, 15, -15⟩

lemma seeking_propose_recDemo :
    seeking_propose_position recDemo ctxDemo = some proposalS := by
  simp only [seeking_propose_position, proposed_qty_of, pyIntTrunc, recDemo, ctxDemo, proposalS]
  norm_num

lemma neutral_propose_recDemo :
    neutral_propose_position recDemo ctxDemo = some proposalN := by
  simp only [neutral_propose_position, proposed_qty_of, pyIntTrunc, recDemo, ctxDemo, proposalN]
  norm_num

lemma conservative_propose_recDemo :
    conservative_propose_position recDemo ctxDemo = some proposalC := by
  simp only [conservative_propose_position, proposed_qty_of, pyIntTrunc, recDemo, ctxDemo,
    proposalC]
  norm_num

/-- C3: the deterministic (non-arbiter) resolution selects exactly the
Risk-Seeking proposal at confidence ≥ 0.85 (including 0.85 itself), exactly
the Risk-Neutral proposal on [0.70, 0.85), and exactly the Risk-Conservative
proposal below 0.70, for every confidence value. -/
theorem simulated_debate_tiers (rec : Recommendation) (s n c : Proposal) :
    (rec.confidence ≥ 0.85 →
      simulated_debate rec s n c =
        ⟨s.proposed_qty, s.stop_loss_pct, rec.target_price * (1 + s.stop_loss_pct / 100)⟩) ∧
    (0.70 ≤ rec.confidence → rec.confidence < 0.85 →
      simulated_debate rec s n c =
        ⟨n.proposed_qty, n.stop_loss_pct, rec.target_price * (1 + n.stop_loss_pct / 100)⟩) ∧
    (rec.confidence < 0.70 →
      simulated_debate rec s n c =
        ⟨c.proposed_qty, c.stop_loss_pct, rec.target_price * (1 + c.stop_loss_pct / 100)⟩) := by
  unfold simulated_debate
  refine ⟨fun h => ?_, fun h1 h2 => ?_, fun h => ?_⟩
  · rw [if_pos h]
  · rw [if_neg (by linarith : ¬ rec.confidence ≥ 0.85), if_pos (h1 : rec.confidence ≥ 0.70)]
  · rw [if_neg (by linarith : ¬ rec.confidence ≥ 0.85),
      if_neg (by linarith : ¬ rec.confidence ≥ 0.70)]

/-- Witness for C3: at confidence 0.9 the deterministic strategy resolves to
the Risk-Seeking proposal. -/
theorem simulated_debate_tiers_witness :
    simulated_debate recDemo proposalS proposalN proposalC =
      ⟨proposalS.proposed_qty, proposalS.stop_loss_pct,
        recDemo.target_price * (1 + proposalS.stop_loss_pct / 100)⟩ :=
  (simulated_debate_tiers recDemo proposalS proposalN proposalC).1
    (by norm_num [recDemo])

lemma claude_debate_stop_price_eq (reply : ArbiterReply) (rec : Recommendation)
    (s n c : Proposal) :
    (claude_debate reply rec s n c).stop_price =
      rec.target_price * (1 + (claude_debate reply rec s n c).stop_pct / 100) := by
  cases reply <;> rfl

lemma simulated_debate_stop_price_eq (rec : Recommendation) (s n c : Proposal) :
    (simulated_debate rec s n c).stop_price =
      rec.target_price * (1 + (simulated_debate rec s n c).stop_pct / 100) := rfl

/-- C9: under both resolution strategies, the stop-loss price in the result
equals `target_price × (1 + stop_loss_percent / 100)` exactly, where
`stop_loss_percent` is the stop percentage that strategy chose. -/
theorem stop_price_formula (reply : ArbiterReply) (rec : Recommendation) (s n c : Proposal) :
    (claude_debate reply rec s n c).stop_price =
      rec.target_price * (1 + (claude_debate reply rec s n c).stop_pct / 100) ∧
    (simulated_debate rec s n c).stop_price =
      rec.target_price * (1 + (simulated_debate rec s n c).stop_pct / 100) :=
  ⟨claude_debate_stop_price_eq reply rec s n c, simulated_debate_stop_price_eq rec s n c⟩

lemma seeking_propose_stop_loss (rec : Recommendation) (ctx : PortfolioContext)
    (s : Proposal) (h : seeking_propose_position rec ctx = some s) :
    s.stop_loss_pct = -25 := by
  obtain ⟨q, _, hs⟩ := Option.map_eq_some'.mp h
  rw [← hs]
  norm_num

lemma neutral_propose_stop_loss (rec : Recommendation) (ctx : PortfolioContext)
    (n : Proposal) (h : neutral_propose_position rec ctx = some n) :
    n.stop_loss_pct = -20 := by
  obtain ⟨q, _, hs⟩ := Option.map_eq_some'.mp h
  rw [← hs]
  norm_num

lemma conservative_propose_stop_loss (rec : Recommendation) (ctx : PortfolioContext)
    (c : Proposal) (h : conservative_propose_position rec ctx = some c) :
    c.stop_loss_pct = -15 := by
  obtain ⟨q, _, hs⟩ := Option.map_eq_some'.mp h
  rw [← hs]
  norm_num

lemma stop_price_le (target sp : ℚ) (hsp : sp ≤ 0) (ht : 0 ≤ target) :
    target * (1 + sp / 100) ≤ target := by
  have h1 : 1 + sp / 100 ≤ 1 := by linarith
  calc target * (1 + sp / 100) ≤ target * 1 := mul_le_mul_of_nonneg_left h1 ht
  _ = target := mul_one target

/-- C10: in every resolution path the stop percentage actually applied is
never positive (a positive parsed stop is negated, the parse default is −20,
and the three postures' stop constants are −25/−20/−15), hence for every
recommendation with non-negative target price the resulting stop-loss price
is at most the target price. -/
theorem stop_pct_never_positive (reply : ArbiterReply) (rec : Recommendation)
    (ctx : PortfolioContext) (s n c : Proposal)
    (hs : seeking_propose_position rec ctx = some s)
    (hn : neutral_propose_position rec ctx = some n)
    (hc : conservative_propose_position rec ctx = some c)
    (ht : 0 ≤ rec.target_price) :
    (claude_debate reply rec s n c).stop_pct ≤ 0 ∧
    (claude_debate reply rec s n c).stop_price ≤ rec.target_price ∧
    (simulated_debate rec s n c).stop_pct ≤ 0 ∧
    (simulated_debate rec s n c).stop_price ≤ rec.target_price := by
  have hs25 := seeking_propose_stop_loss rec ctx s hs
  have hn20 := neutral_propose_stop_loss rec ctx n hn
  have hc15 := conservative_propose_stop_loss rec ctx c hc
  have hsim_pct : (simulated_debate rec s n c).stop_pct ≤ 0 := by
    unfold simulated_debate
    split_ifs
    · show s.stop_loss_pct ≤ 0
      rw [hs25]; norm_num
    · show n.stop_loss_pct ≤ 0
      rw [hn20]; norm_num
    · show c.stop_loss_pct ≤ 0
      rw [hc15]; norm_num
  have hcl_pct : (claude_debate reply rec s n c).stop_pct ≤ 0 := by
    cases reply with
    | failure => exact hsim_pct
    | ok text =>
      show (((match searchStop text.data with
        | some v => if v > 0 then -v else v
        | none => -20) : ℤ) : ℚ) ≤ 0
      cases hst : searchStop text.data with
      | none => norm_num
      | some v =>
        simp only
        split_ifs with hv
        · have hv' : (0 : ℚ) < (v : ℚ) := by exact_mod_cast hv
          push_cast
          linarith
        · exact_mod_cast (by omega : v ≤ 0)
  refine ⟨hcl_pct, ?_, hsim_pct, ?_⟩
  · rw [claude_debate_stop_price_eq]
    exact stop_price_le _ _ hcl_pct ht
  · rw [simulated_debate_stop_price_eq]
    exact stop_price_le _ _ hsim_pct ht

/-- Witness for C10 at the concrete demo input (deterministic path,
target price $10). -/
theorem stop_pct_never_positive_witness :
    (simulated_debate recDemo proposalS proposalN proposalC).stop_price ≤
      recDemo.target_price :=
  (stop_pct_never_positive ArbiterReply.failure recDemo ctxDemo
    proposalS proposalN proposalC seeking_propose_recDemo neutral_propose_recDemo
    conservative_propose_recDemo (by norm_num [recDemo])).2.2.2

/-- The quantity formula as the spec words it (§4.3): `proposed_quantity =
floor(position_percent × portfolio_value / target_price)` with
`portfolio_value` supplied explicitly by the caller.  Second definition for
comparison against the source's `proposed_qty_of`, which hard-codes a $1000
notional. -/
def spec_proposed_qty (position_pct portfolio_value target_price : ℚ) : ℤ :=
  ⌊position_pct * portfolio_value / target_price⌋

/-- A caller-supplied portfolio context with a $50,000 total value. -/
def ctxBig : PortfolioContext := { sector_exposure := 0.2, total_value := 50000 }

/-- C4 (code defect): at confidence 0.9, target price $10 and a
caller-supplied portfolio value of $50,000, `propose_position` returns
quantity 25 — it uses the hard-coded $1000 notional (`int(position_pct *
1000 / price)`) and ignores `portfolio_context["total_value"]` — while the
spec formula `floor(position_percent × portfolio_value / target_price)`
gives 1250. -/
theorem proposed_qty_ignores_portfolio_value :
    (seeking_propose_position recDemo ctxBig).map Proposal.proposed_qty = some 25 ∧
    spec_proposed_qty 0.25 ctxBig.total_value recDemo.target_price = 1250 ∧
    (25 : ℤ) ≠ 1250 := by
  refine ⟨?_, ?_, by norm_num⟩
  · simp only [seeking_propose_position, proposed_qty_of, pyIntTrunc, recDemo, ctxBig]
    norm_num
  · simp only [spec_proposed_qty, recDemo, ctxBig]
    norm_num

/-- A recommendation whose target price is zero. -/
def recZeroPrice : Recommendation :=
  { ticker := "APLD", action := "BUY", qty := 5, target_price := 0,
    reasoning_mentions_momentum := false, confidence := 0.9 }

/-- A recommendation whose target price is negative. -/
def recNegPrice : Recommendation :=
  { ticker := "APLD", action := "BUY", qty := 5, target_price := -10,
    reasoning_mentions_momentum := false, confidence := 0.9 }

/-- C5 (code defect): a recommendation with `target_price = 0` makes
`propose_position` divide by zero — `int(position_pct * 1000 / price)` raises
`ZeroDivisionError` (modelled `none`) — and the exception propagates out of
`debate_position_sizing` (no degraded result, no flag); with
`target_price = -10` the proposals come back negative (−25), not 0. -/
theorem zero_target_price_raises :
    seeking_propose_position recZeroPrice ctxDemo = none ∧
    debate_position_sizing none recZeroPrice ctxDemo = none ∧
    (seeking_propose_position recNegPrice ctxDemo).map Proposal.proposed_qty =
      some (-25) := by
  have h0 : seeking_propose_position recZeroPrice ctxDemo = none := by
    simp [seeking_propose_position, proposed_qty_of, recZeroPrice]
  refine ⟨h0, ?_, ?_⟩
  · simp [debate_position_sizing, h0]
  · simp only [seeking_propose_position, proposed_qty_of, pyIntTrunc, recNegPrice, ctxDemo]
    norm_num

/-- A well-formed arbiter reply that contains neither a share count nor a
stop percentage. -/
def replyNoNumbers : String := "Take a moderate stance and hold the line."

/-- C6 counterexample: with an arbiter reply in which both regex extractions
fail, at confidence 0.9 the committee does NOT produce the deterministic
fallback result: `_claude_debate` defaults the quantity to the Risk-Neutral
proposal (18 shares, stop −20%), while the deterministic strategy would
resolve to Risk-Seeking (25 shares, stop −25%). -/
theorem parse_failure_keeps_neutral_default :
    searchShares replyNoNumbers.data = none ∧
    searchStop replyNoNumbers.data = none ∧
    claude_debate (ArbiterReply.ok replyNoNumbers) recDemo proposalS proposalN proposalC ≠
      simulated_debate recDemo proposalS proposalN proposalC := by
  refine ⟨by decide, by decide, ?_⟩
  have hL : (claude_debate (ArbiterReply.ok replyNoNumbers) recDemo
      proposalS proposalN proposalC).consensus_qty = 18 := by
    show ((match searchShares replyNoNumbers.data with
      | some k => (k : ℤ)
      | none => proposalN.proposed_qty : ℤ)) = (18 : ℤ)
    rw [show searchShares replyNoNumbers.data = none from by decide]
    rfl
  have hR : (simulated_debate recDemo proposalS proposalN proposalC).consensus_qty = 25 := by
    unfold simulated_debate
    rw [if_pos (by norm_num [recDemo] : recDemo.confidence ≥ 0.85)]
    rfl
  intro heq
  rw [heq, hR] at hL
  norm_num at hL

/-- C6 amended: on timeout or transport error (a raised exception) the
committee falls back to the deterministic strategy; on a received reply whose
text yields no share-count match it does not fall back — the resolved
quantity defaults to the Risk-Neutral proposal's quantity, and a missing stop
match defaults the stop percentage to −20. -/
theorem arbiter_failure_handling (text : String) (rec : Recommendation)
    (s n c : Proposal)
    (hsh : searchShares text.data = none) (hst : searchStop text.data = none) :
    claude_debate (ArbiterReply.ok text) rec s n c =
      { consensus_qty := n.proposed_qty, stop_pct := -20,
        stop_price := rec.target_price * (1 + (-20 : ℚ) / 100) } ∧
    claude_debate ArbiterReply.failure rec s n c = simulated_debate rec s n c := by
  refine ⟨?_, rfl⟩
  simp only [claude_debate, hsh, hst]
  norm_num

/-- Witness for the amended C6 at the concrete no-numbers reply. -/
theorem arbiter_failure_handling_witness :
    claude_debate (ArbiterReply.ok replyNoNumbers) recDemo proposalS proposalN proposalC =
      { consensus_qty := proposalN.proposed_qty, stop_pct := -20,
        stop_price := recDemo.target_price * (1 + (-20 : ℚ) / 100) } :=
  (arbiter_failure_handling replyNoNumbers recDemo proposalS proposalN proposalC
    (by decide) (by decide)).1

end MicrocapAgent
